import Mathlib

/-!
Shallow embedding of the arcceus/chat-base1 two-panel chat/canvas workspace.

Coordinates, sizes, pan offsets and zoom factors (JS `number`) are modelled as
exact rationals `ℚ`; identifiers and text as `String`; JS `null` as `Option`.
Each definition mirrors one handler or helper of the source files
(`src/components/CanvasPanel.tsx`, `src/components/ChatPanel.tsx`,
`src/components/ChatSidebar.tsx`, `src/components/TextBlock.tsx`, `src/App.tsx`).
-/

namespace ChatBase

/-- A 2-D point, as used for positions, pan offsets and connection endpoints. -/
structure Point where
  x : ℚ
  y : ℚ
deriving DecidableEq, Repr

/-- Mirrors the `TextNode` interface of `CanvasPanel.tsx`. -/
structure TextNode where
  id : String
  text : String
  x : ℚ
  y : ℚ
  width : ℚ
  height : ℚ
  sourceMessageId : Option String
  sourceChatId : Option String
  color : String
deriving DecidableEq, Repr

/-- The rendering style of a connection (`'straight' | 'curved' | 'angled'`). -/
inductive ConnectionType where
  | straight
  | curved
  | angled
deriving DecidableEq, Repr

/-- Mirrors the `Connection` interface of `CanvasPanel.tsx`. -/
structure Connection where
  id : String
  «from» : String
  «to» : String
  fromPoint : Point
  toPoint : Point
  type : ConnectionType
  label : Option String
deriving DecidableEq, Repr

/-- Mirrors the `CanvasData` interface of `CanvasPanel.tsx`; `Date` fields
become abstract `Nat` timestamps. -/
structure CanvasData where
  id : String
  title : String
  nodes : List TextNode
  connections : List Connection
  createdAt : Nat
  lastModified : Nat
deriving DecidableEq, Repr

/-- The interaction state of the canvas component: the `useState` hooks of
`CanvasPanel` that the pointer/zoom handlers read and write. -/
structure CanvasState where
  nodes : List TextNode
  connections : List Connection
  selectedNode : Option String
  draggingNode : Option String
  dragOffset : Point
  zoom : ℚ
  pan : Point
  isPanning : Bool
  panStart : Point
  connectingFrom : Option String
  connectionStart : Option Point
deriving DecidableEq, Repr

/-- The initial values of the `useState` hooks of `CanvasPanel`. -/
def initialCanvasState : CanvasState :=
  { nodes := []
    connections := []
    selectedNode := none
    draggingNode := none
    dragOffset := ⟨0, 0⟩
    zoom := 1
    pan := ⟨0, 0⟩
    isPanning := false
    panStart := ⟨0, 0⟩
    connectingFrom := none
    connectionStart := none }

/-- JS `Math.round` on a rational: round half up, `Math.round x = ⌊x + 0.5⌋`. -/
def jsRound (q : ℚ) : ℚ := ((⌊q + 1/2⌋ : ℤ) : ℚ)

/-- JS `String.prototype.trim`: strip leading and trailing whitespace. -/
def jsTrim (s : String) : String :=
  String.mk (((s.data.dropWhile Char.isWhitespace).reverse.dropWhile Char.isWhitespace).reverse)

namespace CanvasPanel

/-- The fixed block colour palette of `CanvasPanel.tsx`. -/
def colors : List String :=
  ["#3B82F6", "#14B8A6", "#F97316", "#EF4444", "#8B5CF6",
   "#06B6D4", "#84CC16", "#F59E0B", "#EC4899", "#6366F1"]

/-- The width computation of `calculateInitialSize`, as a function of the
character count (`text.length`). -/
def calcWidth (chars : ℕ) : ℚ :=
  if chars > 100 then min 400 (240 + ((chars : ℚ) - 100) * 1.5) else 240

/-- The character-count adjustment of the height in `calculateInitialSize`
(the `chars > 100` branch); `Math.floor((chars - 100) / 60)` on naturals is
truncating division. -/
def calcHeightBase (chars : ℕ) : ℚ :=
  if chars > 100 then min 250 (120 + (((chars - 100) / 60 : ℕ) : ℚ) * 25) else 120

/-- The height computation of `calculateInitialSize`, as a function of the
character count and the word count (`text.split(' ').length`): the
character adjustment followed by the `words > 20` adjustment. -/
def calcHeight (chars words : ℕ) : ℚ :=
  if words > 20 then min 300 (calcHeightBase chars + (((words - 20) / 12 : ℕ) : ℚ) * 20)
  else calcHeightBase chars

/-- Mirrors `calculateInitialSize` of `CanvasPanel.tsx`.  JS
`text.split(' ').length` counts the single-space separators plus one. -/
def calculateInitialSize (text : String) : ℚ × ℚ :=
  let words := text.toList.count ' ' + 1
  let chars := text.length
  (jsRound (calcWidth chars), jsRound (calcHeight chars words))

/-- Mirrors the dropped-text `useEffect` of `CanvasPanel.tsx`: when the
pending drag transfer holds a (truthy, i.e. nonempty) text, spawn one block
at the inverse-transformed viewport centre.  `rect` is the bounding rect size
of the canvas element and `newId` the freshly generated `Date.now` id. -/
def consumeDroppedText (text : String) (rect : Point) (newId : String)
    (sourceMsgId sourceChatId : Option String) (s : CanvasState) : CanvasState :=
  if text = "" then s else
    let centerX := (rect.x / 2 - s.pan.x) / s.zoom
    let centerY := (rect.y / 2 - s.pan.y) / s.zoom
    let size := calculateInitialSize text
    let newNode : TextNode :=
      { id := newId
        text := text
        x := centerX - size.1 / 2
        y := centerY - size.2 / 2
        width := size.1
        height := size.2
        sourceMessageId := sourceMsgId
        sourceChatId := sourceChatId
        color := colors.getD (s.nodes.length % colors.length) "" }
    { s with nodes := s.nodes ++ [newNode] }

/-- Mirrors the zoom update of `handleWheel`: multiply by 0.9 when
`deltaY > 0`, by 1.1 otherwise, then clamp to `[0.5, 3]`. -/
def handleWheel (deltaY : ℚ) (zoom : ℚ) : ℚ :=
  let delta : ℚ := if deltaY > 0 then 0.9 else 1.1
  max 0.5 (min 3 (zoom * delta))

/-- Mirrors `handleZoomIn`. -/
def handleZoomIn (zoom : ℚ) : ℚ := min (zoom * 1.2) 3

/-- Mirrors `handleZoomOut`. -/
def handleZoomOut (zoom : ℚ) : ℚ := max (zoom / 1.2) 0.5

/-- Mirrors `handleConnectionStart` (invoked by a click on one of a block's
connection handles, which passes the handle's coordinate). -/
def handleConnectionStart (nodeId : String) (point : Point) (s : CanvasState) : CanvasState :=
  { s with connectingFrom := some nodeId, connectionStart := some point }

/-- The else-branch of `handleBlockMouseDown`: start dragging the block and
record the drag offset from the screen-to-canvas transformed cursor. -/
def startDragging (nodeId : String) (client rectLT : Point) (s : CanvasState) : CanvasState :=
  let s1 := { s with draggingNode := some nodeId, selectedNode := some nodeId }
  match s.nodes.find? (fun n => n.id == nodeId) with
  | some node =>
      let x := (client.x - rectLT.x - s.pan.x) / s.zoom
      let y := (client.y - rectLT.y - s.pan.y) / s.zoom
      { s1 with dragOffset := ⟨x - node.x, y - node.y⟩ }
  | none => s1

/-- Mirrors `handleBlockMouseDown`: complete a pending connection when armed
from a different block, otherwise start dragging.  `newConnId` is the fresh
`Date.now` id for a created connection. -/
def handleBlockMouseDown (nodeId newConnId : String) (client rectLT : Point)
    (s : CanvasState) : CanvasState :=
  match s.connectingFrom with
  | some connectingFrom =>
    if connectingFrom != nodeId then
      let fromNode := s.nodes.find? (fun n => n.id == connectingFrom)
      let toNode := s.nodes.find? (fun n => n.id == nodeId)
      let s1 :=
        match fromNode, toNode, s.connectionStart with
        | some _, some tn, some start =>
            { s with connections := s.connections ++
                [({ id := newConnId
                    «from» := connectingFrom
                    «to» := nodeId
                    fromPoint := start
                    toPoint := ⟨tn.x + tn.width / 2, tn.y + tn.height / 2⟩
                    type := ConnectionType.curved
                    label := none } : Connection)] }
        | _, _, _ => s
      { s1 with connectingFrom := none, connectionStart := none }
    else startDragging nodeId client rectLT s
  | none => startDragging nodeId client rectLT s

/-- Mirrors `handleBlockResize`: update the block's size and recompute the
cached endpoint of any connection anchored at it (using the pre-resize node
position, as the source does). -/
def handleBlockResize (nodeId : String) (width height : ℚ) (s : CanvasState) : CanvasState :=
  let nodes1 := s.nodes.map (fun n =>
    if n.id == nodeId then { n with width := width, height := height } else n)
  let found : Option TextNode := s.nodes.find? (fun n => n.id == nodeId)
  let connections1 := s.connections.map (fun c =>
    match (if c.«from» == nodeId then found else none) with
    | some node => { c with fromPoint := ⟨node.x + width / 2, node.y + height / 2⟩ }
    | none =>
      match (if c.«to» == nodeId then found else none) with
      | some node => { c with toPoint := ⟨node.x + width / 2, node.y + height / 2⟩ }
      | none => c)
  { s with nodes := nodes1, connections := connections1 }

/-- The dragging branch of `handleMouseMove`: move the dragged block and
recompute the cached endpoints of its connections from its new centre. -/
def moveDraggedNode (client rectLT : Point) (s : CanvasState) : CanvasState :=
  match s.draggingNode with
  | some draggingNode =>
      let x := (client.x - rectLT.x - s.pan.x) / s.zoom
      let y := (client.y - rectLT.y - s.pan.y) / s.zoom
      let newPosition : Point := ⟨x - s.dragOffset.x, y - s.dragOffset.y⟩
      let nodes1 : List TextNode := s.nodes.map (fun n =>
        if n.id == draggingNode then { n with x := newPosition.x, y := newPosition.y } else n)
      let connections1 : List Connection :=
        match s.nodes.find? (fun n => n.id == draggingNode) with
        | some node => s.connections.map (fun c =>
            if c.«from» == draggingNode then
              { c with fromPoint := ⟨newPosition.x + node.width / 2,
                                     newPosition.y + node.height / 2⟩ }
            else if c.«to» == draggingNode then
              { c with toPoint := ⟨newPosition.x + node.width / 2,
                                   newPosition.y + node.height / 2⟩ }
            else c)
        | none => s.connections
      { s with nodes := nodes1, connections := connections1 }
  | none => s

/-- The panning branch of `handleMouseMove`: set the pan from the cursor and
the recorded pan start. -/
def applyPanning (client : Point) (s : CanvasState) : CanvasState :=
  if s.isPanning then
    { s with pan := ⟨client.x - s.panStart.x, client.y - s.panStart.y⟩ }
  else s

/-- Mirrors `handleMouseMove`: move the dragged block (updating attached
connections from its new centre), then apply the panning update.  The
dragging branch reads only `pan`/`zoom` (untouched by the panning branch)
and the panning branch reads only `isPanning`/`panStart` (untouched by the
dragging branch), so sequencing them equals the source handler, which
computes both from the same pre-event state. -/
def handleMouseMove (client rectLT : Point) (s : CanvasState) : CanvasState :=
  applyPanning client (moveDraggedNode client rectLT s)

/-- Mirrors `handleMouseUp`. -/
def handleMouseUp (s : CanvasState) : CanvasState :=
  { s with draggingNode := none, isPanning := false }

/-- Mirrors `handleCanvasMouseDown` for a mousedown whose target is the empty
canvas background: cancel selection and any armed connection, start panning. -/
def handleCanvasMouseDown (client : Point) (s : CanvasState) : CanvasState :=
  { s with selectedNode := none
           connectingFrom := none
           connectionStart := none
           isPanning := true
           panStart := ⟨client.x - s.pan.x, client.y - s.pan.y⟩ }

/-- Mirrors `handleDeleteNode`: drop the node and every connection whose
`from` or `to` is its id. -/
def handleDeleteNode (nodeId : String) (s : CanvasState) : CanvasState :=
  { s with nodes := s.nodes.filter (fun n => n.id != nodeId)
           connections := s.connections.filter (fun c => c.«from» != nodeId && c.«to» != nodeId)
           selectedNode := none }

/-- Mirrors `handleDeleteConnection`. -/
def handleDeleteConnection (connectionId : String) (s : CanvasState) : CanvasState :=
  { s with connections := s.connections.filter (fun c => c.id != connectionId) }

/-- Mirrors `handleCanvasDelete` of `CanvasPanel.tsx`: a guarded delete of a
canvas from the canvas list, switching the current canvas when it was the one
deleted.  Returns the new list and current-canvas id. -/
def handleCanvasDelete (canvases : List CanvasData) (currentCanvasId canvasId : String) :
    List CanvasData × String :=
  if canvases.length ≤ 1 then (canvases, currentCanvasId)
  else
    let remaining := canvases.filter (fun c => c.id != canvasId)
    if currentCanvasId == canvasId then
      (remaining, (remaining.head?.map CanvasData.id).getD currentCanvasId)
    else
      (remaining, currentCanvasId)

/-- The screen-to-canvas transform used by the dropped-text effect and
`handleMouseMove`: `(screen - pan) / zoom`, componentwise. -/
def screenToCanvas (pan : Point) (zoom : ℚ) (p : Point) : Point :=
  ⟨(p.x - pan.x) / zoom, (p.y - pan.y) / zoom⟩

/-- The canvas-to-screen transform realised by the CSS
`translate(pan) scale(zoom)` with origin `0 0`: `canvas * zoom + pan`. -/
def canvasToScreen (pan : Point) (zoom : ℚ) (p : Point) : Point :=
  ⟨p.x * zoom + pan.x, p.y * zoom + pan.y⟩

/-- One user-level event on the canvas, covering every state-mutating handler
of `CanvasPanel`. -/
inductive CanvasOp where
  | dropText (text : String) (rect : Point) (newId : String)
      (sourceMsgId sourceChatId : Option String)
  | wheel (deltaY : ℚ)
  | zoomInButton
  | zoomOutButton
  | blockConnStart (nodeId : String) (point : Point)
  | blockMouseDown (nodeId newConnId : String) (client rectLT : Point)
  | blockResize (nodeId : String) (width height : ℚ)
  | canvasMouseDown (client : Point)
  | mouseMove (client rectLT : Point)
  | mouseUp
  | deleteNode (nodeId : String)
  | deleteConnection (connectionId : String)
deriving DecidableEq, Repr

/-- Dispatch one canvas event to its handler. -/
def applyOp (op : CanvasOp) (s : CanvasState) : CanvasState :=
  match op with
  | .dropText text rect newId srcM srcC => consumeDroppedText text rect newId srcM srcC s
  | .wheel deltaY => { s with zoom := handleWheel deltaY s.zoom }
  | .zoomInButton => { s with zoom := handleZoomIn s.zoom }
  | .zoomOutButton => { s with zoom := handleZoomOut s.zoom }
  | .blockConnStart nodeId point => handleConnectionStart nodeId point s
  | .blockMouseDown nodeId newConnId client rectLT =>
      handleBlockMouseDown nodeId newConnId client rectLT s
  | .blockResize nodeId w h => handleBlockResize nodeId w h s
  | .canvasMouseDown client => handleCanvasMouseDown client s
  | .mouseMove client rectLT => handleMouseMove client rectLT s
  | .mouseUp => handleMouseUp s
  | .deleteNode nodeId => handleDeleteNode nodeId s
  | .deleteConnection connectionId => handleDeleteConnection connectionId s

/-- Apply a sequence of canvas events. -/
def applyOps (ops : List CanvasOp) (s : CanvasState) : CanvasState :=
  ops.foldl (fun s op => applyOp op s) s

end CanvasPanel

namespace TextBlock

/-- The four connection handles of a block (top, right, bottom, left), as
computed by `updateConnectionPoints` in `TextBlock.tsx`. -/
def connectionPoints (n : TextNode) : List Point :=
  [⟨n.x + n.width / 2, n.y⟩,
   ⟨n.x + n.width, n.y + n.height / 2⟩,
   ⟨n.x + n.width / 2, n.y + n.height⟩,
   ⟨n.x, n.y + n.height / 2⟩]

end TextBlock

/-- The author of a message (`'user' | 'ai'`). -/
inductive MessageType where
  | user
  | ai
deriving DecidableEq, Repr

/-- Mirrors the `Message` interface of `ChatPanel.tsx`; `Date` timestamps
become abstract `Nat`s. -/
structure Message where
  id : String
  type : MessageType
  content : String
  timestamp : Nat
deriving DecidableEq, Repr

/-- Mirrors the `ChatSession` interface of `ChatPanel.tsx`. -/
structure ChatSession where
  id : String
  title : String
  messages : List Message
  lastActivity : Nat
  unreadCount : Option Nat
deriving DecidableEq, Repr

namespace ChatPanel

/-- The chat-side state: the `chatSessions`, `inputValue` and `isTyping`
hooks of `ChatPanel`, together with the `currentChatId` prop it receives
from `App`. -/
structure ChatState where
  sessions : List ChatSession
  currentChatId : String
  inputValue : String
  isTyping : Bool
deriving DecidableEq, Repr

/-- The simulated reply scheduled by `handleSendMessage`'s `setTimeout`.
The closure captures `currentChatId` at send time, so the reply carries its
own target chat id. -/
structure PendingReply where
  targetChatId : String
  userContent : String
deriving DecidableEq, Repr

/-- Append a message to every session whose id matches `chatId`, refreshing
its `lastActivity` — the `setChatSessions(prev => prev.map(...))` pattern
used both for the user message and for the simulated reply. -/
def appendToChat (sessions : List ChatSession) (chatId : String) (m : Message)
    (now : Nat) : List ChatSession :=
  sessions.map (fun chat =>
    if chat.id == chatId then
      { chat with messages := chat.messages ++ [m], lastActivity := now }
    else chat)

/-- The user message constructed by `handleSendMessage` at time `now`
(`Date.now().toString()` id). -/
def userMessage (content : String) (now : Nat) : Message :=
  { id := toString now, type := MessageType.user, content := jsTrim content, timestamp := now }

/-- Mirrors the synchronous part of `handleSendMessage`: bail out on a
blank input, otherwise append the user message to the current chat and
schedule a reply targeted at the send-time `currentChatId`. -/
def handleSendMessage (s : ChatState) (now : Nat) : ChatState × Option PendingReply :=
  if jsTrim s.inputValue = "" then (s, none)
  else
    ({ s with sessions := appendToChat s.sessions s.currentChatId (userMessage s.inputValue now) now
              inputValue := ""
              isTyping := true },
     some { targetChatId := s.currentChatId, userContent := jsTrim s.inputValue })

/-- Mirrors the `setTimeout` body of `handleSendMessage`, firing at
`fireTime`: build the assistant message (content chosen by
`simulateAIResponse`, passed in here as `aiContent` since it is picked at
random) and append it to the chat the reply was destined for. -/
def fireReply (s : ChatState) (pr : PendingReply) (fireTime : Nat)
    (aiContent : String) : ChatState :=
  let aiMessage : Message :=
    { id := toString (fireTime + 1), type := MessageType.ai,
      content := aiContent, timestamp := fireTime }
  { s with sessions := appendToChat s.sessions pr.targetChatId aiMessage fireTime
           isTyping := false }

/-- The effect of `App.handleChatSelect` on the chat panel: the
`currentChatId` prop changes, the session list is untouched, the pending
reply timer is not cancelled. -/
def selectChat (chatId : String) (s : ChatState) : ChatState :=
  { s with currentChatId := chatId }

/-- The scenario behind claim C7: send a message, switch the active chat to
`later`, then let the simulated-reply timer fire. -/
def sendSwitchFire (s : ChatState) (now : Nat) (later : String) (fireTime : Nat)
    (aiContent : String) : ChatState :=
  match handleSendMessage s now with
  | (s1, some pr) => fireReply (selectChat later s1) pr fireTime aiContent
  | (s1, none) => selectChat later s1

/-- Mirrors `handleChatDelete` of `ChatPanel.tsx` restricted to the session
list (the current-chat switch is driven through `onChatSelect`). -/
def handleChatDelete (sessions : List ChatSession) (chatId : String) : List ChatSession :=
  sessions.filter (fun chat => chat.id != chatId)

end ChatPanel

namespace ChatSidebar

/-- Mirrors `handleDeleteChat` of `ChatSidebar.tsx`: the delete callback is
only invoked when more than one session remains. -/
def handleDeleteChat (sessions : List ChatSession) (chatId : String) : List ChatSession :=
  if sessions.length > 1 then ChatPanel.handleChatDelete sessions chatId else sessions

end ChatSidebar

namespace App

/-- The lifted drag-bridge and highlight state of `App.tsx`. -/
structure AppState where
  draggedText : Option String
  sourceMsgId : Option String
  sourceChatId : Option String
  highlightedMessageId : Option String
  currentChatId : String
deriving DecidableEq, Repr

/-- Mirrors `handleTextDrag`. -/
def handleTextDrag (text messageId chatId : String) (s : AppState) : AppState :=
  { s with draggedText := some text, sourceMsgId := some messageId,
           sourceChatId := some chatId }

/-- Mirrors `handleTextDragComplete`. -/
def handleTextDragComplete (s : AppState) : AppState :=
  { s with draggedText := none, sourceMsgId := none, sourceChatId := none }

/-- Mirrors `handleChatSelect` of `App.tsx`. -/
def handleChatSelect (chatId : String) (s : AppState) : AppState :=
  { s with currentChatId := chatId, highlightedMessageId := none }

/-- Mirrors `handleNewChat` of `App.tsx`. -/
def handleNewChat (newChatId : String) (s : AppState) : AppState :=
  { s with currentChatId := newChatId
           highlightedMessageId := none
           draggedText := none
           sourceMsgId := none
           sourceChatId := none }

end App

/-! Concrete example inputs used to instantiate the theorems below. -/

namespace Examples

/-- A sample block. -/
def nodeA : TextNode :=
  { id := "a", text := "alpha", x := 0, y := 0, width := 200, height := 100,
    sourceMessageId := none, sourceChatId := none, color := "#3B82F6" }

/-- A second sample block. -/
def nodeB : TextNode :=
  { id := "b", text := "beta", x := 250, y := 100, width := 200, height := 100,
    sourceMessageId := none, sourceChatId := none, color := "#14B8A6" }

/-- A third sample block. -/
def nodeC : TextNode :=
  { id := "c", text := "gamma", x := 500, y := 300, width := 200, height := 100,
    sourceMessageId := none, sourceChatId := none, color := "#F97316" }

/-- A connection from `nodeA` to `nodeB`. -/
def connAB : Connection :=
  { id := "c1", «from» := "a", «to» := "b", fromPoint := ⟨100, 0⟩,
    toPoint := ⟨350, 150⟩, type := ConnectionType.curved, label := none }

/-- A connection from `nodeB` to `nodeC`. -/
def connBC : Connection :=
  { id := "c2", «from» := "b", «to» := "c", fromPoint := ⟨350, 150⟩,
    toPoint := ⟨600, 350⟩, type := ConnectionType.curved, label := none }

/-- A canvas holding the three sample blocks and two connections. -/
def canvasEx1 : CanvasState :=
  { initialCanvasState with nodes := [nodeA, nodeB, nodeC], connections := [connAB, connBC] }

/-- A canvas holding only the two sample blocks, nothing armed. -/
def canvasEx2 : CanvasState :=
  { initialCanvasState with nodes := [nodeA, nodeB] }

/-- A canvas state armed for connecting from `nodeA`. -/
def canvasArmed : CanvasState :=
  { initialCanvasState with nodes := [nodeA, nodeB]
                            connectingFrom := some "a"
                            connectionStart := some ⟨100, 0⟩ }

/-- The space-rich C2 counterexample text: 60 one-letter words, 119 chars. -/
def spacedText : String := String.mk ((List.replicate 59 ['a', ' ']).flatten ++ ['a'])

/-- The space-free C2 counterexample text: one 120-char word. -/
def solidText : String := String.mk (List.replicate 120 'b')

/-- Canvas event sequence: drop two blocks, then connect them with the
two-click gesture. -/
def witnessOps : List CanvasPanel.CanvasOp :=
  [CanvasPanel.CanvasOp.dropText "alpha" ⟨0, 0⟩ "n1" none none,
   CanvasPanel.CanvasOp.dropText "beta" ⟨0, 0⟩ "n2" none none,
   CanvasPanel.CanvasOp.blockConnStart "n1" ⟨0, 0⟩,
   CanvasPanel.CanvasOp.blockMouseDown "n2" "k1" ⟨0, 0⟩ ⟨0, 0⟩]

/-- The connection produced by `witnessOps`. -/
def connWitness : Connection :=
  { id := "k1", «from» := "n1", «to» := "n2", fromPoint := ⟨0, 0⟩,
    toPoint := ⟨0, 0⟩, type := ConnectionType.curved, label := none }

/-- A sample chat session. -/
def sessionOne : ChatSession :=
  { id := "s1", title := "Project Discussion", messages := [], lastActivity := 0,
    unreadCount := none }

/-- A second sample chat session. -/
def sessionTwo : ChatSession :=
  { id := "s2", title := "Personal Notes", messages := [], lastActivity := 0,
    unreadCount := none }

/-- A chat state about to send "hi" in session `s1`. -/
def chatEx : ChatPanel.ChatState :=
  { sessions := [sessionOne, sessionTwo], currentChatId := "s1",
    inputValue := "hi", isTyping := false }

/-- A sole canvas, as in the initial canvas list. -/
def soleCanvas : CanvasData :=
  { id := "default-canvas", title := "Main Canvas", nodes := [], connections := [],
    createdAt := 0, lastModified := 0 }

/-- An app state with a pending drag transfer and a pending highlight. -/
def appEx : App.AppState :=
  { draggedText := some "hello", sourceMsgId := some "m1", sourceChatId := some "s1",
    highlightedMessageId := some "m2", currentChatId := "s1" }

end Examples

/-! Helper lemmas. -/

/-- JS rounding is monotone. -/
lemma jsRound_mono {q r : ℚ} (h : q ≤ r) : jsRound q ≤ jsRound r := by
  unfold jsRound
  exact_mod_cast Int.floor_mono (by linarith : q + 1/2 ≤ r + 1/2)

/-- JS rounding respects an integer lower bound. -/
lemma le_jsRound {a : ℤ} {q : ℚ} (ha : (a : ℚ) ≤ q) : (a : ℚ) ≤ jsRound q := by
  unfold jsRound
  exact_mod_cast Int.le_floor.mpr (by linarith : (a : ℚ) ≤ q + 1/2)

/-- JS rounding respects an integer upper bound. -/
lemma jsRound_le {b : ℤ} {q : ℚ} (hb : q ≤ (b : ℚ)) : jsRound q ≤ (b : ℚ) := by
  unfold jsRound
  have h1 : ⌊q + 1/2⌋ < b + 1 := Int.floor_lt.mpr (by push_cast; linarith)
  exact_mod_cast Int.lt_add_one_iff.mp h1

/-- Evaluate `jsRound` when the target integer is known. -/
lemma jsRound_eq_intCast {n : ℤ} {q : ℚ} (h1 : (n : ℚ) ≤ q + 1/2)
    (h2 : q + 1/2 < (n : ℚ) + 1) : jsRound q = (n : ℚ) := by
  unfold jsRound
  have : ⌊q + 1/2⌋ = n := Int.floor_eq_iff.mpr ⟨h1, h2⟩
  exact_mod_cast this

namespace CanvasPanel

/-- The pre-rounding width is monotone in the character count. -/
lemma calcWidth_mono {c1 c2 : ℕ} (h : c1 ≤ c2) : calcWidth c1 ≤ calcWidth c2 := by
  unfold calcWidth
  split_ifs with h1 h2
  · apply min_le_min le_rfl
    have : (c1 : ℚ) ≤ (c2 : ℚ) := by exact_mod_cast h
    linarith
  · omega
  · have : (100 : ℚ) ≤ (c2 : ℚ) := by exact_mod_cast Nat.le_of_lt (by assumption)
    exact le_min (by norm_num) (by linarith)
  · exact le_rfl

/-- The pre-rounding width lies in `[240, 400]`. -/
lemma calcWidth_bounds (c : ℕ) : 240 ≤ calcWidth c ∧ calcWidth c ≤ 400 := by
  unfold calcWidth
  split_ifs with h
  · have : (100 : ℚ) ≤ (c : ℚ) := by exact_mod_cast Nat.le_of_lt h
    exact ⟨le_min (by norm_num) (by linarith), min_le_left _ _⟩
  · norm_num

/-- The character-count part of the pre-rounding height is monotone. -/
lemma calcHeightBase_mono {c1 c2 : ℕ} (h : c1 ≤ c2) :
    calcHeightBase c1 ≤ calcHeightBase c2 := by
  unfold calcHeightBase
  split_ifs with h1 h2
  · apply min_le_min le_rfl
    have : (((c1 - 100) / 60 : ℕ) : ℚ) ≤ (((c2 - 100) / 60 : ℕ) : ℚ) := by
      exact_mod_cast Nat.div_le_div_right (Nat.sub_le_sub_right h 100)
    linarith
  · omega
  · have : (0 : ℚ) ≤ (((c2 - 100) / 60 : ℕ) : ℚ) := by positivity
    exact le_min (by norm_num) (by linarith)
  · exact le_rfl

/-- The character-count part of the pre-rounding height lies in `[120, 250]`. -/
lemma calcHeightBase_bounds (c : ℕ) : 120 ≤ calcHeightBase c ∧ calcHeightBase c ≤ 250 := by
  unfold calcHeightBase
  split_ifs with h
  · have : (0 : ℚ) ≤ (((c - 100) / 60 : ℕ) : ℚ) := by positivity
    exact ⟨le_min (by norm_num) (by linarith), min_le_left _ _⟩
  · norm_num

/-- The pre-rounding height is monotone in character and word count jointly. -/
lemma calcHeight_mono {c1 w1 c2 w2 : ℕ} (hc : c1 ≤ c2) (hw : w1 ≤ w2) :
    calcHeight c1 w1 ≤ calcHeight c2 w2 := by
  unfold calcHeight
  have hbase := calcHeightBase_mono hc
  split_ifs with h1 h2
  · apply min_le_min le_rfl
    have : (((w1 - 20) / 12 : ℕ) : ℚ) ≤ (((w2 - 20) / 12 : ℕ) : ℚ) := by
      exact_mod_cast Nat.div_le_div_right (Nat.sub_le_sub_right hw 20)
    linarith
  · omega
  · have h250 := (calcHeightBase_bounds c1).2
    have : (0 : ℚ) ≤ (((w2 - 20) / 12 : ℕ) : ℚ) := by positivity
    exact le_min (by linarith) (by linarith)
  · exact hbase

/-- The pre-rounding height lies in `[120, 300]`. -/
lemma calcHeight_bounds (c w : ℕ) : 120 ≤ calcHeight c w ∧ calcHeight c w ≤ 300 := by
  unfold calcHeight
  have hb := calcHeightBase_bounds c
  split_ifs with h
  · have : (0 : ℚ) ≤ (((w - 20) / 12 : ℕ) : ℚ) := by positivity
    exact ⟨le_min (by norm_num) (by linarith [hb.1]), min_le_left _ _⟩
  · exact ⟨hb.1, by linarith [hb.2]⟩

end CanvasPanel

/-- In a list whose keys are pairwise distinct, `find?` by the key of a
member returns exactly that member. -/
lemma find?_key_eq_some {α : Type} (key : α → String) {l : List α} {a : α}
    (ha : a ∈ l) (hnd : (l.map key).Nodup) :
    l.find? (fun x => key x == key a) = some a := by
  induction l with
  | nil => cases ha
  | cons b t ih =>
    rw [List.map_cons, List.nodup_cons] at hnd
    by_cases hb : key b = key a
    · have hba : b = a := by
        rcases List.mem_cons.mp ha with h | h
        · exact h.symm
        · exact absurd (hb ▸ List.mem_map_of_mem key h) hnd.1
      subst hba
      exact List.find?_cons_of_pos _ (by simp)
    · rw [List.find?_cons_of_neg _ (by simp [hb])]
      refine ih ?_ hnd.2
      rcases List.mem_cons.mp ha with h | h
      · exact absurd (h ▸ rfl) hb
      · exact h

/-- In a canvas whose node ids are pairwise distinct, filtering out one
member's id is exactly `List.erase` of that member. -/
lemma filter_ne_id_eq_erase {l : List TextNode} {B : TextNode} (hB : B ∈ l)
    (hnd : (l.map TextNode.id).Nodup) :
    l.filter (fun n => n.id != B.id) = l.erase B := by
  induction l with
  | nil => cases hB
  | cons a t ih =>
    rw [List.map_cons, List.nodup_cons] at hnd
    by_cases hab : a.id = B.id
    · have haB : a = B := by
        rcases List.mem_cons.mp hB with h | h
        · exact h.symm
        · exact absurd (hab ▸ List.mem_map_of_mem TextNode.id h) hnd.1
      subst haB
      rw [List.filter_cons_of_neg (by simp), List.erase_cons_head]
      refine List.filter_eq_self.mpr fun n hn => ?_
      have : n.id ≠ a.id := fun he => hnd.1 (he ▸ List.mem_map_of_mem TextNode.id hn)
      simpa using this
    · have haB : a ≠ B := fun h => hab (congrArg TextNode.id h)
      have hBt : B ∈ t := by
        rcases List.mem_cons.mp hB with h | h
        · exact absurd h.symm haB
        · exact h
      rw [List.filter_cons_of_pos (by simpa using hab),
          List.erase_cons_tail (by simpa using haB), ih hBt hnd.2]

namespace CanvasPanel

/-- Starting a drag does not change the zoom. -/
lemma startDragging_zoom (nodeId : String) (client rectLT : Point) (s : CanvasState) :
    (startDragging nodeId client rectLT s).zoom = s.zoom := by
  unfold startDragging
  cases s.nodes.find? (fun n => n.id == nodeId) <;> rfl

/-- Starting a drag does not change the connections. -/
lemma startDragging_connections (nodeId : String) (client rectLT : Point) (s : CanvasState) :
    (startDragging nodeId client rectLT s).connections = s.connections := by
  unfold startDragging
  cases s.nodes.find? (fun n => n.id == nodeId) <;> rfl

/-- Starting a drag does not change the nodes. -/
lemma startDragging_nodes (nodeId : String) (client rectLT : Point) (s : CanvasState) :
    (startDragging nodeId client rectLT s).nodes = s.nodes := by
  unfold startDragging
  cases s.nodes.find? (fun n => n.id == nodeId) <;> rfl

/-- Starting a drag marks the block as the dragged one. -/
lemma startDragging_draggingNode (nodeId : String) (client rectLT : Point) (s : CanvasState) :
    (startDragging nodeId client rectLT s).draggingNode = some nodeId := by
  unfold startDragging
  cases s.nodes.find? (fun n => n.id == nodeId) <;> rfl

/-- A block mousedown does not change the zoom. -/
lemma handleBlockMouseDown_zoom (nodeId newConnId : String) (client rectLT : Point)
    (s : CanvasState) :
    (handleBlockMouseDown nodeId newConnId client rectLT s).zoom = s.zoom := by
  unfold handleBlockMouseDown
  cases s.connectingFrom with
  | none => exact startDragging_zoom nodeId client rectLT s
  | some cf =>
    by_cases hcf : (cf != nodeId) = true
    · simp only [hcf, if_true]
      cases s.nodes.find? (fun n => n.id == cf) <;>
        cases s.nodes.find? (fun n => n.id == nodeId) <;>
          cases s.connectionStart <;> rfl
    · simp only [hcf, if_false, Bool.false_eq_true]
      exact startDragging_zoom nodeId client rectLT s

/-- Consuming dropped text does not change the zoom. -/
lemma consumeDroppedText_zoom (text : String) (rect : Point) (newId : String)
    (srcM srcC : Option String) (s : CanvasState) :
    (consumeDroppedText text rect newId srcM srcC s).zoom = s.zoom := by
  unfold consumeDroppedText
  split <;> rfl

/-- Consuming dropped text does not change the connections. -/
lemma consumeDroppedText_connections (text : String) (rect : Point) (newId : String)
    (srcM srcC : Option String) (s : CanvasState) :
    (consumeDroppedText text rect newId srcM srcC s).connections = s.connections := by
  unfold consumeDroppedText
  split <;> rfl

/-- The dragging branch does not change the zoom. -/
lemma moveDraggedNode_zoom (client rectLT : Point) (s : CanvasState) :
    (moveDraggedNode client rectLT s).zoom = s.zoom := by
  unfold moveDraggedNode
  cases s.draggingNode <;> rfl

/-- The panning branch does not change the zoom. -/
lemma applyPanning_zoom (client : Point) (s : CanvasState) :
    (applyPanning client s).zoom = s.zoom := by
  unfold applyPanning
  split <;> rfl

/-- Moving the mouse does not change the zoom. -/
lemma handleMouseMove_zoom (client rectLT : Point) (s : CanvasState) :
    (handleMouseMove client rectLT s).zoom = s.zoom := by
  rw [handleMouseMove, applyPanning_zoom, moveDraggedNode_zoom]

/-- One wheel notch leaves the zoom inside `[0.5, 3]` whatever it was. -/
lemma handleWheel_bounds (deltaY zoom : ℚ) :
    0.5 ≤ handleWheel deltaY zoom ∧ handleWheel deltaY zoom ≤ 3 := by
  unfold handleWheel
  exact ⟨le_max_left _ _, max_le (by norm_num) (min_le_left _ _)⟩

/-- The zoom-in button keeps the zoom inside `[0.5, 3]`. -/
lemma handleZoomIn_bounds {zoom : ℚ} (h : 0.5 ≤ zoom) :
    0.5 ≤ handleZoomIn zoom ∧ handleZoomIn zoom ≤ 3 := by
  unfold handleZoomIn
  exact ⟨le_min (by linarith) (by norm_num), min_le_right _ _⟩

/-- The zoom-out button keeps the zoom inside `[0.5, 3]`. -/
lemma handleZoomOut_bounds {zoom : ℚ} (h : zoom ≤ 3) :
    0.5 ≤ handleZoomOut zoom ∧ handleZoomOut zoom ≤ 3 := by
  unfold handleZoomOut
  refine ⟨le_max_right _ _, max_le ?_ (by norm_num)⟩
  rw [div_le_iff₀ (by norm_num : (0:ℚ) < 1.2)]
  linarith

/-- Every canvas event keeps the zoom inside `[0.5, 3]`. -/
lemma applyOp_zoom_bounds (op : CanvasOp) {s : CanvasState}
    (h : 0.5 ≤ s.zoom ∧ s.zoom ≤ 3) :
    0.5 ≤ (applyOp op s).zoom ∧ (applyOp op s).zoom ≤ 3 := by
  cases op with
  | dropText text rect newId srcM srcC =>
      rw [applyOp, consumeDroppedText_zoom]; exact h
  | wheel deltaY => exact handleWheel_bounds deltaY s.zoom
  | zoomInButton => exact handleZoomIn_bounds h.1
  | zoomOutButton => exact handleZoomOut_bounds h.2
  | blockConnStart nodeId point => exact h
  | blockMouseDown nodeId newConnId client rectLT =>
      rw [applyOp, handleBlockMouseDown_zoom]; exact h
  | blockResize nodeId w ht => exact h
  | canvasMouseDown client => exact h
  | mouseMove client rectLT =>
      rw [applyOp, handleMouseMove_zoom]; exact h
  | mouseUp => exact h
  | deleteNode nodeId => exact h
  | deleteConnection connectionId => exact h

/-- A whole event sequence keeps the zoom inside `[0.5, 3]`. -/
lemma applyOps_zoom_bounds (ops : List CanvasOp) {s : CanvasState}
    (h : 0.5 ≤ s.zoom ∧ s.zoom ≤ 3) :
    0.5 ≤ (applyOps ops s).zoom ∧ (applyOps ops s).zoom ≤ 3 := by
  induction ops generalizing s with
  | nil => exact h
  | cons op t ih => exact ih (applyOp_zoom_bounds op h)

/-- Every connection surviving a resize has the endpoints of one of the
original connections. -/
lemma handleBlockResize_endpoints (nodeId : String) (w ht : ℚ) (s : CanvasState) :
    ∀ c ∈ (handleBlockResize nodeId w ht s).connections,
      ∃ c0 ∈ s.connections, c.«from» = c0.«from» ∧ c.«to» = c0.«to» := by
  intro c hc
  simp only [handleBlockResize, List.mem_map] at hc
  obtain ⟨c0, hc0, rfl⟩ := hc
  refine ⟨c0, hc0, ?_⟩
  cases hf : (if c0.«from» == nodeId then s.nodes.find? (fun n => n.id == nodeId) else none) with
  | some node => simp [hf]
  | none =>
    cases ht2 : (if c0.«to» == nodeId then s.nodes.find? (fun n => n.id == nodeId) else none) with
    | some node => simp [hf, ht2]
    | none => simp [hf, ht2]

/-- Every connection surviving a mouse move has the endpoints of one of the
original connections. -/
lemma handleMouseMove_endpoints (client rectLT : Point) (s : CanvasState) :
    ∀ c ∈ (handleMouseMove client rectLT s).connections,
      ∃ c0 ∈ s.connections, c.«from» = c0.«from» ∧ c.«to» = c0.«to» := by
  intro c hc
  have hpan : (applyPanning client (moveDraggedNode client rectLT s)).connections
      = (moveDraggedNode client rectLT s).connections := by
    unfold applyPanning; split <;> rfl
  rw [handleMouseMove, hpan] at hc
  unfold moveDraggedNode at hc
  cases hd : s.draggingNode with
  | none => exact ⟨c, by rw [hd] at hc; exact hc, rfl, rfl⟩
  | some dn =>
    rw [hd] at hc
    simp only at hc
    cases hfind : s.nodes.find? (fun n => n.id == dn) with
    | none =>
      rw [hfind] at hc
      exact ⟨c, hc, rfl, rfl⟩
    | some node =>
      rw [hfind] at hc
      simp only [List.mem_map] at hc
      obtain ⟨c0, hc0, rfl⟩ := hc
      refine ⟨c0, hc0, ?_⟩
      by_cases h1 : (c0.«from» == dn) = true
      · simp [h1]
      · by_cases h2 : (c0.«to» == dn) = true
        · simp [h1, h2]
        · simp [h1, h2]

/-- A block mousedown preserves the no-self-loop property: the only new
connection it can append has `from ≠ to` by the arming guard. -/
lemma handleBlockMouseDown_no_self (nodeId newConnId : String) (client rectLT : Point)
    {s : CanvasState} (h : ∀ c ∈ s.connections, c.«from» ≠ c.«to») :
    ∀ c ∈ (handleBlockMouseDown nodeId newConnId client rectLT s).connections,
      c.«from» ≠ c.«to» := by
  intro c hc
  unfold handleBlockMouseDown at hc
  cases hcf : s.connectingFrom with
  | none =>
    rw [hcf] at hc
    rw [startDragging_connections] at hc
    exact h c hc
  | some cf =>
    rw [hcf] at hc
    simp only at hc
    by_cases hne : (cf != nodeId) = true
    · rw [if_pos hne] at hc
      have hcfnid : cf ≠ nodeId := bne_iff_ne.mp hne
      cases h1 : s.nodes.find? (fun n => n.id == cf) with
      | none =>
        rw [h1] at hc
        cases h2 : s.nodes.find? (fun n => n.id == nodeId) <;>
          cases h3 : s.connectionStart <;> rw [h2, h3] at hc <;> exact h c hc
      | some fn =>
        rw [h1] at hc
        cases h2 : s.nodes.find? (fun n => n.id == nodeId) with
        | none =>
          rw [h2] at hc
          cases h3 : s.connectionStart <;> rw [h3] at hc <;> exact h c hc
        | some tn =>
          rw [h2] at hc
          cases h3 : s.connectionStart with
          | none => rw [h3] at hc; exact h c hc
          | some start =>
            rw [h3] at hc
            simp only [List.mem_append, List.mem_singleton] at hc
            rcases hc with hc | rfl
            · exact h c hc
            · exact hcfnid
    · rw [if_neg hne] at hc
      rw [startDragging_connections] at hc
      exact h c hc

/-- Every canvas event preserves the no-self-loop property of connections. -/
lemma applyOp_no_self (op : CanvasOp) {s : CanvasState}
    (h : ∀ c ∈ s.connections, c.«from» ≠ c.«to») :
    ∀ c ∈ (applyOp op s).connections, c.«from» ≠ c.«to» := by
  cases op with
  | dropText text rect newId srcM srcC =>
    intro c hc
    rw [applyOp, consumeDroppedText_connections] at hc
    exact h c hc
  | wheel deltaY => exact h
  | zoomInButton => exact h
  | zoomOutButton => exact h
  | blockConnStart nodeId point => exact h
  | blockMouseDown nodeId newConnId client rectLT =>
    exact handleBlockMouseDown_no_self nodeId newConnId client rectLT h
  | blockResize nodeId w ht =>
    intro c hc
    obtain ⟨c0, hc0, hfrom, hto⟩ := handleBlockResize_endpoints nodeId w ht s c hc
    rw [hfrom, hto]
    exact h c0 hc0
  | canvasMouseDown client => exact h
  | mouseMove client rectLT =>
    intro c hc
    obtain ⟨c0, hc0, hfrom, hto⟩ := handleMouseMove_endpoints client rectLT s c hc
    rw [hfrom, hto]
    exact h c0 hc0
  | mouseUp => exact h
  | deleteNode nodeId =>
    intro c hc
    exact h c (List.mem_filter.mp hc).1
  | deleteConnection connectionId =>
    intro c hc
    exact h c (List.mem_filter.mp hc).1

/-- A whole event sequence preserves the no-self-loop property. -/
lemma applyOps_no_self (ops : List CanvasOp) {s : CanvasState}
    (h : ∀ c ∈ s.connections, c.«from» ≠ c.«to») :
    ∀ c ∈ (applyOps ops s).connections, c.«from» ≠ c.«to» := by
  induction ops generalizing s with
  | nil => exact h
  | cons op t ih => exact ih (applyOp_no_self op h)

end CanvasPanel

/-- Completing the two-click gesture on distinct blocks appends exactly one
connection from the recorded handle point to the target's centre. -/
lemma two_click_connections (s : CanvasState) (A B : TextNode) (p : Point)
    (newConnId : String) (client rectLT : Point)
    (hA : A ∈ s.nodes) (hB : B ∈ s.nodes) (hAB : A.id ≠ B.id)
    (hnd : (s.nodes.map TextNode.id).Nodup) :
    (CanvasPanel.handleBlockMouseDown B.id newConnId client rectLT
        (CanvasPanel.handleConnectionStart A.id p s)).connections
      = s.connections ++
        [({ id := newConnId, «from» := A.id, «to» := B.id, fromPoint := p,
            toPoint := ⟨B.x + B.width / 2, B.y + B.height / 2⟩,
            type := ConnectionType.curved, label := none } : Connection)] := by
  have hbne : (A.id != B.id) = true := bne_iff_ne.mpr hAB
  show (CanvasPanel.handleBlockMouseDown B.id newConnId client rectLT
      { s with connectingFrom := some A.id, connectionStart := some p }).connections = _
  unfold CanvasPanel.handleBlockMouseDown
  dsimp only
  rw [if_pos hbne, find?_key_eq_some TextNode.id hA hnd, find?_key_eq_some TextNode.id hB hnd]

namespace ChatPanel

/-- Appending a message to a chat updates the session `find?` locates for
that chat id accordingly. -/
lemma appendToChat_find? {sessions : List ChatSession} {chatId : String}
    (m : Message) (now : Nat) {sS : ChatSession}
    (h : sessions.find? (fun c => c.id == chatId) = some sS) :
    (appendToChat sessions chatId m now).find? (fun c => c.id == chatId)
      = some { sS with messages := sS.messages ++ [m], lastActivity := now } := by
  unfold appendToChat
  rw [List.find?_map]
  have hpred : ((fun c : ChatSession => c.id == chatId) ∘
      (fun chat : ChatSession => if chat.id == chatId then
        { chat with messages := chat.messages ++ [m], lastActivity := now } else chat))
      = (fun c : ChatSession => c.id == chatId) := by
    funext c
    by_cases hcid : (c.id == chatId) = true
    · rw [Function.comp_apply, if_pos hcid]
    · rw [Function.comp_apply, if_neg hcid]
  rw [hpred, h]
  have hsid : (sS.id == chatId) = true := by simpa using List.find?_some h
  rw [Option.map_some', if_pos hsid]

/-- Appending a message to a chat leaves every session with a different id
in the list unchanged. -/
lemma appendToChat_other {sessions : List ChatSession} {chatId : String}
    (m : Message) (now : Nat) {c : ChatSession}
    (hc : c ∈ sessions) (hne : c.id ≠ chatId) :
    c ∈ appendToChat sessions chatId m now := by
  unfold appendToChat
  have hfix : (if c.id == chatId then
      { c with messages := c.messages ++ [m], lastActivity := now } else c) = c := by
    simp [hne]
  exact hfix ▸ List.mem_map_of_mem _ hc

end ChatPanel

/-! Claim theorems. -/

/-- C1: deleting a block removes every connection whose `from` or `to` field
equals the block's identifier, leaves every other connection in place, and
removes exactly that block from the node list. -/
theorem C1_deleteNode_cascades (s : CanvasState) (B : TextNode)
    (hB : B ∈ s.nodes) (hnd : (s.nodes.map TextNode.id).Nodup) :
    (∀ c : Connection,
      c ∈ (CanvasPanel.handleDeleteNode B.id s).connections ↔
        c ∈ s.connections ∧ c.«from» ≠ B.id ∧ c.«to» ≠ B.id)
    ∧ (CanvasPanel.handleDeleteNode B.id s).nodes = s.nodes.erase B := by
  constructor
  · intro c
    show c ∈ s.connections.filter (fun c => c.«from» != B.id && c.«to» != B.id) ↔ _
    rw [List.mem_filter]
    simp [Bool.and_eq_true, bne_iff_ne, and_assoc]
  · exact filter_ne_id_eq_erase hB hnd

/-- C1 witness: deleting block `a` from the three-block canvas removes it and
exactly the connection incident to it. -/
theorem C1_deleteNode_cascades_witness :
    (Examples.nodeA ∈ Examples.canvasEx1.nodes
      ∧ (Examples.canvasEx1.nodes.map TextNode.id).Nodup)
    ∧ (CanvasPanel.handleDeleteNode Examples.nodeA.id Examples.canvasEx1).nodes
        = Examples.canvasEx1.nodes.erase Examples.nodeA :=
  ⟨⟨by decide, by decide⟩,
   (C1_deleteNode_cascades Examples.canvasEx1 Examples.nodeA (by decide) (by decide)).2⟩

/-- C2 counterexample: the block height is not a monotonically non-decreasing
function of the dropped text's length — a 119-character space-rich text
yields height 180 while a 120-character space-free text yields height 120. -/
theorem C2_height_not_monotone_in_length :
    ¬ (∀ t1 t2 : String, t1.length ≤ t2.length →
        (CanvasPanel.calculateInitialSize t1).2 ≤ (CanvasPanel.calculateInitialSize t2).2) := by
  intro hmono
  have hl1 : Examples.spacedText.length = 119 := by decide
  have hc1 : Examples.spacedText.toList.count ' ' = 59 := by decide
  have hl2 : Examples.solidText.length = 120 := by decide
  have hc2 : Examples.solidText.toList.count ' ' = 0 := by decide
  have e1 : (CanvasPanel.calculateInitialSize Examples.spacedText).2 = 180 := by
    show jsRound (CanvasPanel.calcHeight Examples.spacedText.length
      (Examples.spacedText.toList.count ' ' + 1)) = 180
    rw [hl1, hc1]
    have hch : CanvasPanel.calcHeight 119 (59 + 1) = 180 := by
      norm_num [CanvasPanel.calcHeight, CanvasPanel.calcHeightBase, min_def]
    rw [hch]
    have := @jsRound_eq_intCast 180 180 (by norm_num) (by norm_num)
    rw [this]; norm_num
  have e2 : (CanvasPanel.calculateInitialSize Examples.solidText).2 = 120 := by
    show jsRound (CanvasPanel.calcHeight Examples.solidText.length
      (Examples.solidText.toList.count ' ' + 1)) = 120
    rw [hl2, hc2]
    have hch : CanvasPanel.calcHeight 120 (0 + 1) = 120 := by
      norm_num [CanvasPanel.calcHeight, CanvasPanel.calcHeightBase, min_def]
    rw [hch]
    have := @jsRound_eq_intCast 120 120 (by norm_num) (by norm_num)
    rw [this]; norm_num
  have h := hmono Examples.spacedText Examples.solidText (by rw [hl1, hl2]; norm_num)
  rw [e1, e2] at h
  norm_num at h

/-- C2 (amended): consuming a nonempty dropped text appends exactly one block
whose size is `calculateInitialSize` of the text; the width is a
monotonically non-decreasing function of the text length and lies within
the documented bounds, the height lies within the documented bounds and is
monotonically non-decreasing in the character count and the word count
jointly — but it is not a function of the length alone. -/
theorem C2_drop_size (s : CanvasState) (text : String) (rect : Point) (newId : String)
    (srcM srcC : Option String) (hne : text ≠ "")
    (t1 t2 : String) (hlen : t1.length ≤ t2.length)
    (c1 w1 c2 w2 : ℕ) (hcc : c1 ≤ c2) (hww : w1 ≤ w2) :
    (∃ n : TextNode,
        (CanvasPanel.consumeDroppedText text rect newId srcM srcC s).nodes = s.nodes ++ [n]
        ∧ n.width = (CanvasPanel.calculateInitialSize text).1
        ∧ n.height = (CanvasPanel.calculateInitialSize text).2)
    ∧ (CanvasPanel.calculateInitialSize t1).1 ≤ (CanvasPanel.calculateInitialSize t2).1
    ∧ (200 ≤ (CanvasPanel.calculateInitialSize text).1
        ∧ (CanvasPanel.calculateInitialSize text).1 ≤ 600
        ∧ 100 ≤ (CanvasPanel.calculateInitialSize text).2
        ∧ (CanvasPanel.calculateInitialSize text).2 ≤ 500)
    ∧ jsRound (CanvasPanel.calcHeight c1 w1) ≤ jsRound (CanvasPanel.calcHeight c2 w2) := by
  refine ⟨?_, ?_, ?_, ?_⟩
  · simp only [CanvasPanel.consumeDroppedText, if_neg hne]
    exact ⟨_, rfl, rfl, rfl⟩
  · exact jsRound_mono (CanvasPanel.calcWidth_mono hlen)
  · have hwb := CanvasPanel.calcWidth_bounds text.length
    have hhb := CanvasPanel.calcHeight_bounds text.length (text.toList.count ' ' + 1)
    have h1 : ((240:ℤ):ℚ) ≤ jsRound (CanvasPanel.calcWidth text.length) :=
      le_jsRound (by push_cast; linarith [hwb.1])
    have h2 : jsRound (CanvasPanel.calcWidth text.length) ≤ ((400:ℤ):ℚ) :=
      jsRound_le (by push_cast; linarith [hwb.2])
    have h3 : ((120:ℤ):ℚ) ≤ jsRound (CanvasPanel.calcHeight text.length
        (text.toList.count ' ' + 1)) :=
      le_jsRound (by push_cast; linarith [hhb.1])
    have h4 : jsRound (CanvasPanel.calcHeight text.length (text.toList.count ' ' + 1))
        ≤ ((300:ℤ):ℚ) :=
      jsRound_le (by push_cast; linarith [hhb.2])
    push_cast at h1 h2 h3 h4
    have ew : (CanvasPanel.calculateInitialSize text).1
        = jsRound (CanvasPanel.calcWidth text.length) := rfl
    have eh : (CanvasPanel.calculateInitialSize text).2
        = jsRound (CanvasPanel.calcHeight text.length (text.toList.count ' ' + 1)) := rfl
    rw [ew, eh]
    exact ⟨by linarith, by linarith, by linarith, by linarith⟩
  · exact jsRound_mono (CanvasPanel.calcHeight_mono hcc hww)

/-- C2 witness: dropping the one-character text `x` on the pristine canvas
appends exactly one block of the computed size. -/
theorem C2_drop_size_witness :
    ("x" : String) ≠ "" ∧
    ∃ n : TextNode,
      (CanvasPanel.consumeDroppedText "x" ⟨0, 0⟩ "id1" none none initialCanvasState).nodes
        = initialCanvasState.nodes ++ [n]
      ∧ n.width = (CanvasPanel.calculateInitialSize "x").1
      ∧ n.height = (CanvasPanel.calculateInitialSize "x").2 :=
  ⟨by decide,
   (C2_drop_size initialCanvasState "x" ⟨0, 0⟩ "id1" none none (by decide)
      "ab" "abcd" (by decide) 1 1 2 2 (by decide) (by decide)).1⟩

/-- C3: for any event sequence from the initial canvas state, mapping a
screen point to canvas space by `(screen - pan) / zoom` and back through the
CSS transform `canvas * zoom + pan` is the identity (exactly, over `ℚ`). -/
theorem C3_screen_canvas_roundtrip (ops : List CanvasPanel.CanvasOp) (p : Point) :
    CanvasPanel.canvasToScreen (CanvasPanel.applyOps ops initialCanvasState).pan
      (CanvasPanel.applyOps ops initialCanvasState).zoom
      (CanvasPanel.screenToCanvas (CanvasPanel.applyOps ops initialCanvasState).pan
        (CanvasPanel.applyOps ops initialCanvasState).zoom p) = p := by
  have hz := CanvasPanel.applyOps_zoom_bounds ops
    (⟨by norm_num [initialCanvasState], by norm_num [initialCanvasState]⟩ :
      0.5 ≤ initialCanvasState.zoom ∧ initialCanvasState.zoom ≤ 3)
  have hzne : (CanvasPanel.applyOps ops initialCanvasState).zoom ≠ 0 := by
    intro h0
    rw [h0] at hz
    norm_num at hz
  unfold CanvasPanel.canvasToScreen CanvasPanel.screenToCanvas
  cases p with
  | mk px py =>
    dsimp only
    rw [Point.mk.injEq]
    constructor
    · rw [div_mul_cancel₀ _ hzne]; ring
    · rw [div_mul_cancel₀ _ hzne]; ring

/-- C4: starting from the initial zoom of 1, any sequence of canvas events
(including wheel notches and the zoom-in/zoom-out buttons) leaves the zoom
factor inside `[0.5, 3]`. -/
theorem C4_zoom_clamped (ops : List CanvasPanel.CanvasOp) :
    0.5 ≤ (CanvasPanel.applyOps ops initialCanvasState).zoom
    ∧ (CanvasPanel.applyOps ops initialCanvasState).zoom ≤ 3 :=
  CanvasPanel.applyOps_zoom_bounds ops ⟨by norm_num [initialCanvasState], by norm_num [initialCanvasState]⟩

/-- C5 counterexample: a wheel notch with positive `deltaY` from zoom 1
yields 0.9, which is not the multiplicative inverse of 1.1 (10/11). -/
theorem C5_wheel_out_not_inverse :
    CanvasPanel.handleWheel 1 1 = 0.9 ∧ (0.9 : ℚ) ≠ 1 * (1.1 : ℚ)⁻¹ := by
  constructor
  · show max 0.5 (min 3 (1 * (if (1:ℚ) > 0 then (0.9:ℚ) else 1.1))) = 0.9
    norm_num [max_def, min_def]
  · norm_num

/-- C5 (amended): a single wheel notch multiplies the zoom by 1.1 when
zooming in (`deltaY ≤ 0`) and by 0.9 — not by the inverse of 1.1 — when
zooming out (`deltaY > 0`), before clamping to `[0.5, 3]`. -/
theorem C5_wheel_factors (deltaY z : ℚ) :
    (deltaY > 0 → CanvasPanel.handleWheel deltaY z = max 0.5 (min 3 (z * 0.9)))
    ∧ (¬ deltaY > 0 → CanvasPanel.handleWheel deltaY z = max 0.5 (min 3 (z * 1.1))) := by
  unfold CanvasPanel.handleWheel
  constructor <;> intro h <;> simp [h]

/-- C5 witness: the amended law evaluated at a concrete zoom-out notch. -/
theorem C5_wheel_factors_witness :
    (1 : ℚ) > 0 ∧ CanvasPanel.handleWheel 1 1 = max 0.5 (min 3 (1 * 0.9)) :=
  ⟨by norm_num, (C5_wheel_factors 1 1).1 (by norm_num)⟩

/-- C6: with connection mode armed from a handle of block A, a mousedown on
block B appends exactly one connection whose `fromPoint` is the exact handle
coordinate clicked on A — which is not A's centre — and whose `toPoint` is
B's geometric centre. -/
theorem C6_two_click_connection (s : CanvasState) (A B : TextNode) (p : Point)
    (newConnId : String) (client rectLT : Point)
    (hA : A ∈ s.nodes) (hB : B ∈ s.nodes) (hAB : A.id ≠ B.id)
    (hnd : (s.nodes.map TextNode.id).Nodup)
    (hp : p ∈ TextBlock.connectionPoints A) (hwpos : 0 < A.width) (hhpos : 0 < A.height) :
    (CanvasPanel.handleBlockMouseDown B.id newConnId client rectLT
        (CanvasPanel.handleConnectionStart A.id p s)).connections
      = s.connections ++
        [({ id := newConnId, «from» := A.id, «to» := B.id, fromPoint := p,
            toPoint := ⟨B.x + B.width / 2, B.y + B.height / 2⟩,
            type := ConnectionType.curved, label := none } : Connection)]
    ∧ p ≠ ⟨A.x + A.width / 2, A.y + A.height / 2⟩ := by
  constructor
  · have hbne : (A.id != B.id) = true := bne_iff_ne.mpr hAB
    show (CanvasPanel.handleBlockMouseDown B.id newConnId client rectLT
        { s with connectingFrom := some A.id, connectionStart := some p }).connections = _
    unfold CanvasPanel.handleBlockMouseDown
    dsimp only
    rw [if_pos hbne, find?_key_eq_some TextNode.id hA hnd, find?_key_eq_some TextNode.id hB hnd]
  · have hx : A.x < A.x + A.width := by linarith
    have hy : A.y < A.y + A.height := by linarith
    have hx2 : A.x + A.width / 2 < A.x + A.width := by linarith
    have hy2 : A.y < A.y + A.height / 2 := by linarith
    simp only [TextBlock.connectionPoints, List.mem_cons, List.mem_singleton,
      List.not_mem_nil, or_false] at hp
    rcases hp with rfl | rfl | rfl | rfl <;>
      · intro he
        rw [Point.mk.injEq] at he
        obtain ⟨he1, he2⟩ := he
        linarith [he1, he2]

/-- C6 witness: connecting from the top handle of block `a` to block `b`
records the handle point and b's centre. -/
theorem C6_two_click_connection_witness :
    Examples.nodeA.id ≠ Examples.nodeB.id ∧
    (CanvasPanel.handleBlockMouseDown Examples.nodeB.id "k2" ⟨0, 0⟩ ⟨0, 0⟩
        (CanvasPanel.handleConnectionStart Examples.nodeA.id ⟨100, 0⟩ Examples.canvasEx2)).connections
      = Examples.canvasEx2.connections ++
        [({ id := "k2", «from» := Examples.nodeA.id, «to» := Examples.nodeB.id,
            fromPoint := ⟨100, 0⟩,
            toPoint := ⟨Examples.nodeB.x + Examples.nodeB.width / 2,
                        Examples.nodeB.y + Examples.nodeB.height / 2⟩,
            type := ConnectionType.curved, label := none } : Connection)] :=
  ⟨by decide,
   (C6_two_click_connection Examples.canvasEx2 Examples.nodeA Examples.nodeB ⟨100, 0⟩
      "k2" ⟨0, 0⟩ ⟨0, 0⟩ (by decide) (by decide) (by decide) (by decide)
      (by norm_num [TextBlock.connectionPoints, Examples.nodeA])
      (by norm_num [Examples.nodeA]) (by norm_num [Examples.nodeA])).1⟩

/-- C7: a user message sent in the current chat schedules a reply that
carries its own target; switching the active chat before the timer fires
still delivers the reply into the original session, and every other session
is left unchanged. -/
theorem C7_reply_delivered_to_origin (st : ChatPanel.ChatState) (now fireTime : Nat)
    (T aiContent : String) (sS : ChatSession)
    (hsend : jsTrim st.inputValue ≠ "")
    (hnd : (st.sessions.map ChatSession.id).Nodup)
    (hS : st.sessions.find? (fun c => c.id == st.currentChatId) = some sS)
    (_hT : T ≠ st.currentChatId) :
    ((ChatPanel.sendSwitchFire st now T fireTime aiContent).sessions.find?
        (fun c => c.id == st.currentChatId)
      = some { sS with
          messages := sS.messages ++
            [ChatPanel.userMessage st.inputValue now,
             { id := toString (fireTime + 1), type := MessageType.ai,
               content := aiContent, timestamp := fireTime }],
          lastActivity := fireTime })
    ∧ ∀ c ∈ st.sessions, c ≠ sS →
        c ∈ (ChatPanel.sendSwitchFire st now T fireTime aiContent).sessions := by
  have hshape : (ChatPanel.sendSwitchFire st now T fireTime aiContent).sessions
      = ChatPanel.appendToChat
          (ChatPanel.appendToChat st.sessions st.currentChatId
            (ChatPanel.userMessage st.inputValue now) now)
          st.currentChatId
          { id := toString (fireTime + 1), type := MessageType.ai,
            content := aiContent, timestamp := fireTime } fireTime := by
    unfold ChatPanel.sendSwitchFire ChatPanel.handleSendMessage
    rw [if_neg hsend]
    rfl
  constructor
  · rw [hshape]
    have h1 := ChatPanel.appendToChat_find? (ChatPanel.userMessage st.inputValue now) now hS
    have h2 := ChatPanel.appendToChat_find?
      ({ id := toString (fireTime + 1), type := MessageType.ai,
         content := aiContent, timestamp := fireTime } : Message) fireTime h1
    rw [h2]
    simp [List.append_assoc]
  · intro c hc hne
    have hmem : sS ∈ st.sessions := List.mem_of_find?_eq_some hS
    have hsid : sS.id = st.currentChatId := by simpa using List.find?_some hS
    have hcid : c.id ≠ st.currentChatId := by
      intro h
      exact hne (List.inj_on_of_nodup_map hnd hc hmem (by rw [h, hsid]))
    rw [hshape]
    exact ChatPanel.appendToChat_other _ _ (ChatPanel.appendToChat_other _ _ hc hcid) hcid

/-- C7 witness: a message sent in session `s1`, followed by a switch to
`s2`, still lands the simulated reply in `s1`. -/
theorem C7_reply_delivered_to_origin_witness :
    (jsTrim Examples.chatEx.inputValue ≠ ""
      ∧ Examples.chatEx.sessions.find?
          (fun c => c.id == Examples.chatEx.currentChatId) = some Examples.sessionOne
      ∧ "s2" ≠ Examples.chatEx.currentChatId)
    ∧ (ChatPanel.sendSwitchFire Examples.chatEx 5 "s2" 9 "ok").sessions.find?
        (fun c => c.id == Examples.chatEx.currentChatId)
      = some { Examples.sessionOne with
          messages := Examples.sessionOne.messages ++
            [ChatPanel.userMessage Examples.chatEx.inputValue 5,
             { id := toString (9 + 1), type := MessageType.ai,
               content := "ok", timestamp := 9 }],
          lastActivity := 9 } :=
  ⟨⟨by decide, by decide, by decide⟩,
   (C7_reply_delivered_to_origin Examples.chatEx 5 9 "s2" "ok" Examples.sessionOne
      (by decide) (by decide) (by decide) (by decide)).1⟩

/-- C8 counterexample: switching the active chat does not clear the pending
drag transfer — the dragged text survives `handleChatSelect`. -/
theorem C8_drag_transfer_survives_select :
    (App.handleChatSelect "s2" Examples.appEx).draggedText = some "hello"
    ∧ (App.handleChatSelect "s2" Examples.appEx).sourceMsgId ≠ none
    ∧ "s2" ≠ Examples.appEx.currentChatId := by
  refine ⟨rfl, by simp [App.handleChatSelect, Examples.appEx], by decide⟩

/-- C8 (amended): switching the active chat clears the pending highlight but
leaves the drag transfer untouched; only `handleNewChat` clears the drag
transfer. -/
theorem C8_select_clears_highlight_only (chatId : String) (s : App.AppState) :
    (App.handleChatSelect chatId s).highlightedMessageId = none
    ∧ (App.handleChatSelect chatId s).draggedText = s.draggedText
    ∧ (App.handleChatSelect chatId s).sourceMsgId = s.sourceMsgId
    ∧ (App.handleChatSelect chatId s).sourceChatId = s.sourceChatId
    ∧ (App.handleChatSelect chatId s).currentChatId = chatId
    ∧ ∀ newChatId : String,
        (App.handleNewChat newChatId s).draggedText = none
        ∧ (App.handleNewChat newChatId s).sourceMsgId = none
        ∧ (App.handleNewChat newChatId s).sourceChatId = none
        ∧ (App.handleNewChat newChatId s).highlightedMessageId = none :=
  ⟨rfl, rfl, rfl, rfl, rfl, fun _ => ⟨rfl, rfl, rfl, rfl⟩⟩

/-- C9: when exactly one canvas exists, deleting it is a no-op on the canvas
list and the current canvas, and when exactly one chat session exists, the
sidebar delete is a no-op on the session list; neither reports an error. -/
theorem C9_sole_delete_noop (canvases : List CanvasData) (currentCanvasId canvasId : String)
    (sessions : List ChatSession) (chatId : String)
    (hc : canvases.length = 1) (hs : sessions.length = 1) :
    CanvasPanel.handleCanvasDelete canvases currentCanvasId canvasId
        = (canvases, currentCanvasId)
    ∧ ChatSidebar.handleDeleteChat sessions chatId = sessions := by
  constructor
  · unfold CanvasPanel.handleCanvasDelete
    rw [if_pos (by omega)]
  · unfold ChatSidebar.handleDeleteChat
    rw [if_neg (by omega)]

/-- C10: no state reachable from the initial canvas by any event sequence
contains a connection whose `from` and `to` identifiers are equal, and a
mousedown on the arming block's own body starts a drag instead of
completing a connection. -/
theorem C10_no_self_connections :
    (∀ (ops : List CanvasPanel.CanvasOp) (c : Connection),
        c ∈ (CanvasPanel.applyOps ops initialCanvasState).connections → c.«from» ≠ c.«to»)
    ∧ ∀ (s : CanvasState) (armedId newConnId : String) (client rectLT : Point),
        s.connectingFrom = some armedId →
        (CanvasPanel.handleBlockMouseDown armedId newConnId client rectLT s).connections
            = s.connections
        ∧ (CanvasPanel.handleBlockMouseDown armedId newConnId client rectLT s).draggingNode
            = some armedId := by
  constructor
  · intro ops c hc
    refine CanvasPanel.applyOps_no_self ops ?_ c hc
    intro c0 hc0
    simp [initialCanvasState] at hc0
  · intro s armedId newConnId client rectLT hArmed
    unfold CanvasPanel.handleBlockMouseDown
    rw [hArmed]
    dsimp only
    rw [if_neg (by simp)]
    exact ⟨CanvasPanel.startDragging_connections armedId client rectLT s,
           CanvasPanel.startDragging_draggingNode armedId client rectLT s⟩

/-- C10 witness: the connection built by dropping two blocks and linking
them has distinct endpoints, and a mousedown on the armed block itself
leaves the connection list unchanged. -/
theorem C10_no_self_connections_witness :
    (Examples.connWitness
        ∈ (CanvasPanel.applyOps Examples.witnessOps initialCanvasState).connections
      ∧ Examples.connWitness.«from» ≠ Examples.connWitness.«to»)
    ∧ (Examples.canvasArmed.connectingFrom = some "a"
      ∧ (CanvasPanel.handleBlockMouseDown "a" "k3" ⟨0, 0⟩ ⟨0, 0⟩
          Examples.canvasArmed).connections = Examples.canvasArmed.connections) := by
  have hmem : Examples.connWitness
      ∈ (CanvasPanel.applyOps Examples.witnessOps initialCanvasState).connections := by
    have h1 : CanvasPanel.applyOp (CanvasPanel.CanvasOp.dropText "alpha" ⟨0, 0⟩ "n1" none none)
        initialCanvasState
        = { initialCanvasState with nodes :=
            [{ id := "n1", text := "alpha",
               x := ((0:ℚ)/2 - 0)/1 - (CanvasPanel.calculateInitialSize "alpha").1 / 2,
               y := ((0:ℚ)/2 - 0)/1 - (CanvasPanel.calculateInitialSize "alpha").2 / 2,
               width := (CanvasPanel.calculateInitialSize "alpha").1,
               height := (CanvasPanel.calculateInitialSize "alpha").2,
               sourceMessageId := none, sourceChatId := none, color := "#3B82F6" }] } := by
      simp [CanvasPanel.applyOp, CanvasPanel.consumeDroppedText, initialCanvasState,
        CanvasPanel.colors]
    have h2 : CanvasPanel.applyOp (CanvasPanel.CanvasOp.dropText "beta" ⟨0, 0⟩ "n2" none none)
        ({ initialCanvasState with nodes :=
            [{ id := "n1", text := "alpha",
               x := ((0:ℚ)/2 - 0)/1 - (CanvasPanel.calculateInitialSize "alpha").1 / 2,
               y := ((0:ℚ)/2 - 0)/1 - (CanvasPanel.calculateInitialSize "alpha").2 / 2,
               width := (CanvasPanel.calculateInitialSize "alpha").1,
               height := (CanvasPanel.calculateInitialSize "alpha").2,
               sourceMessageId := none, sourceChatId := none, color := "#3B82F6" }] } : CanvasState)
        = { initialCanvasState with nodes :=
            [{ id := "n1", text := "alpha",
               x := ((0:ℚ)/2 - 0)/1 - (CanvasPanel.calculateInitialSize "alpha").1 / 2,
               y := ((0:ℚ)/2 - 0)/1 - (CanvasPanel.calculateInitialSize "alpha").2 / 2,
               width := (CanvasPanel.calculateInitialSize "alpha").1,
               height := (CanvasPanel.calculateInitialSize "alpha").2,
               sourceMessageId := none, sourceChatId := none, color := "#3B82F6" },
             { id := "n2", text := "beta",
               x := ((0:ℚ)/2 - 0)/1 - (CanvasPanel.calculateInitialSize "beta").1 / 2,
               y := ((0:ℚ)/2 - 0)/1 - (CanvasPanel.calculateInitialSize "beta").2 / 2,
               width := (CanvasPanel.calculateInitialSize "beta").1,
               height := (CanvasPanel.calculateInitialSize "beta").2,
               sourceMessageId := none, sourceChatId := none, color := "#14B8A6" }] } := by
      simp [CanvasPanel.applyOp, CanvasPanel.consumeDroppedText, initialCanvasState,
        CanvasPanel.colors]
    have hsteps : CanvasPanel.applyOps Examples.witnessOps initialCanvasState
        = CanvasPanel.handleBlockMouseDown "n2" "k1" ⟨0, 0⟩ ⟨0, 0⟩
            (CanvasPanel.handleConnectionStart "n1" ⟨0, 0⟩
              (CanvasPanel.applyOp (CanvasPanel.CanvasOp.dropText "beta" ⟨0, 0⟩ "n2" none none)
                (CanvasPanel.applyOp (CanvasPanel.CanvasOp.dropText "alpha" ⟨0, 0⟩ "n1" none none)
                  initialCanvasState))) := rfl
    rw [hsteps, h1, h2]
    have hconn := two_click_connections
      ({ initialCanvasState with nodes :=
          [{ id := "n1", text := "alpha",
             x := ((0:ℚ)/2 - 0)/1 - (CanvasPanel.calculateInitialSize "alpha").1 / 2,
             y := ((0:ℚ)/2 - 0)/1 - (CanvasPanel.calculateInitialSize "alpha").2 / 2,
             width := (CanvasPanel.calculateInitialSize "alpha").1,
             height := (CanvasPanel.calculateInitialSize "alpha").2,
             sourceMessageId := none, sourceChatId := none, color := "#3B82F6" },
           { id := "n2", text := "beta",
             x := ((0:ℚ)/2 - 0)/1 - (CanvasPanel.calculateInitialSize "beta").1 / 2,
             y := ((0:ℚ)/2 - 0)/1 - (CanvasPanel.calculateInitialSize "beta").2 / 2,
             width := (CanvasPanel.calculateInitialSize "beta").1,
             height := (CanvasPanel.calculateInitialSize "beta").2,
             sourceMessageId := none, sourceChatId := none, color := "#14B8A6" }] } : CanvasState)
      ({ id := "n1", text := "alpha",
         x := ((0:ℚ)/2 - 0)/1 - (CanvasPanel.calculateInitialSize "alpha").1 / 2,
         y := ((0:ℚ)/2 - 0)/1 - (CanvasPanel.calculateInitialSize "alpha").2 / 2,
         width := (CanvasPanel.calculateInitialSize "alpha").1,
         height := (CanvasPanel.calculateInitialSize "alpha").2,
         sourceMessageId := none, sourceChatId := none, color := "#3B82F6" } : TextNode)
      ({ id := "n2", text := "beta",
         x := ((0:ℚ)/2 - 0)/1 - (CanvasPanel.calculateInitialSize "beta").1 / 2,
         y := ((0:ℚ)/2 - 0)/1 - (CanvasPanel.calculateInitialSize "beta").2 / 2,
         width := (CanvasPanel.calculateInitialSize "beta").1,
         height := (CanvasPanel.calculateInitialSize "beta").2,
         sourceMessageId := none, sourceChatId := none, color := "#14B8A6" } : TextNode)
      ⟨0, 0⟩ "k1" ⟨0, 0⟩ ⟨0, 0⟩
      (List.mem_cons_self _ _)
      (List.mem_cons_of_mem _ (List.mem_cons_self _ _))
      (by decide)
      (by decide)
    rw [hconn]
    norm_num [Examples.connWitness, Connection.mk.injEq, Point.mk.injEq]
  exact ⟨⟨hmem, C10_no_self_connections.1 Examples.witnessOps Examples.connWitness hmem⟩,
    ⟨rfl, (C10_no_self_connections.2 Examples.canvasArmed "a" "k3" ⟨0, 0⟩ ⟨0, 0⟩ rfl).1⟩⟩

/-- C9 witness: deleting the sole canvas and the sole chat session leaves
both lists unchanged. -/
theorem C9_sole_delete_noop_witness :
    ([Examples.soleCanvas].length = 1 ∧ [Examples.sessionOne].length = 1)
    ∧ CanvasPanel.handleCanvasDelete [Examples.soleCanvas] "default-canvas" "default-canvas"
        = ([Examples.soleCanvas], "default-canvas") :=
  ⟨⟨rfl, rfl⟩,
   (C9_sole_delete_noop [Examples.soleCanvas] "default-canvas" "default-canvas"
      [Examples.sessionOne] "s1" rfl rfl).1⟩

end ChatBase
